import Mathlib

/-!
Shallow embedding of the attribute-driven rendering state machine of the
lumap point-cloud viewer (src/main.js), covering `updateHighlight`,
`switchAttribute` and the buffer-construction core of `loadPointCloud`.

Float32 buffer entries are modelled as rationals: every operation the
claims concern copies constants or previously stored values, so exact
rational arithmetic is faithful.  JavaScript typed-array semantics are
kept: an out-of-bounds write is a silent no-op (`List.set` does this),
loops run over the length the source names, and `parseInt` of a string
with no leading digits yields NaN, which compares unequal to every
number.
-/

namespace Lumap

/-- A JavaScript number as produced by `parseInt`: either NaN or an integer. -/
inductive JsNum where
  | nan : JsNum
  | int : Int → JsNum
deriving DecidableEq, Repr

/-- Numeric value of a decimal digit character. -/
def charDigit (c : Char) : Nat := c.toNat - 48

/-- Value of a run of decimal digit characters, most significant first. -/
def digitsVal (cs : List Char) : Nat := cs.foldl (fun a c => a * 10 + charDigit c) 0

/-- JavaScript `parseInt(s)` (radix 10): skip leading spaces, optional sign,
then the longest digit run; NaN when there is no digit. -/
def parseIntJs (s : String) : JsNum :=
  let cs := s.data.dropWhile (fun c => c = ' ')
  let signRest : Bool × List Char :=
    match cs with
    | '-' :: r => (true, r)
    | '+' :: r => (false, r)
    | r => (false, r)
  let ds := signRest.2.takeWhile Char.isDigit
  if ds.isEmpty then JsNum.nan
  else if signRest.1 then JsNum.int (-(digitsVal ds : Int))
  else JsNum.int (digitsVal ds)

/-- JavaScript `code === sel` where `code` is a uint8 from the attribute code
buffer and `sel` the result of `parseInt`: NaN equals nothing. -/
def jsEq (code : Nat) (sel : JsNum) : Bool :=
  match sel with
  | JsNum.nan => false
  | JsNum.int k => (code : Int) == k

/-- State of the visualizer relevant to loading, attribute switching and
highlighting (fields of `LumapVisualizer` plus the geometry buffers). -/
structure VizState where
  currentAttribute : Option String
  cellTypes : Option (List Nat)
  cellTypeNames : Option (List String)
  attributeData : List (String × List Nat)
  attributes : Option (List (String × List String))
  colors : List ℚ
  brightness : List ℚ
  originalColors : List ℚ
  highlightedType : Option JsNum
  hasPointCloud : Bool
  log : List String
deriving DecidableEq, Repr

/-- `this.attributeData[name]` lookup. -/
def lookupData (l : List (String × List Nat)) (n : String) : Option (List Nat) :=
  (l.find? (fun p => p.1 == n)).map (fun p => p.2)

/-- `this.attributes.attributes[name].names` lookup (None when metadata absent). -/
def lookupNames (o : Option (List (String × List String))) (n : String) :
    Option (List String) :=
  o.bind (fun l => (l.find? (fun p => p.1 == n)).map (fun p => p.2))

/-- `for (let i = 0; i < src.length; i++) dst[i] = src[i]` on typed arrays,
walking `src` with the running index `i`; writes past `dst` are no-ops. -/
def restoreLoop (src : List ℚ) (i : Nat) (dst : List ℚ) : List ℚ :=
  match src with
  | [] => dst
  | v :: rest => restoreLoop rest (i + 1) (dst.set i v)

/-- The highlight loop of `updateHighlight` (main.js 654-671): for each index
`i` below the code buffer's length, restore the original triple and full
brightness when `cellTypes[i] === selectedType`, else write the dim gray
`(0.2, 0.2, 0.2)` and brightness `0.15`. -/
def highlightLoop (cts : List Nat) (i : Nat) (sel : JsNum) (orig : List ℚ)
    (colors brightness : List ℚ) : List ℚ × List ℚ :=
  match cts with
  | [] => (colors, brightness)
  | code :: rest =>
      let isSelected := jsEq code sel
      let colors' :=
        if isSelected then
          ((colors.set (3 * i) (orig.getD (3 * i) 0)).set (3 * i + 1)
              (orig.getD (3 * i + 1) 0)).set (3 * i + 2) (orig.getD (3 * i + 2) 0)
        else
          ((colors.set (3 * i) 0.2).set (3 * i + 1) 0.2).set (3 * i + 2) 0.2
      let brightness' :=
        if isSelected then brightness.set i 1 else brightness.set i 0.15
      highlightLoop rest (i + 1) sel orig colors' brightness'

/-- `updateHighlight(cellTypeIndex)` (main.js 632-676).  `none` models the
JavaScript `null` argument; `some ""` the empty string.  Early return when no
code buffer or no point cloud is loaded; `null`/`''` restores original colors
and full brightness; otherwise the highlight loop runs with
`parseInt(cellTypeIndex)`. -/
def updateHighlight (cellTypeIndex : Option String) (s : VizState) : VizState :=
  match s.cellTypes, s.hasPointCloud with
  | some cts, true =>
      if cellTypeIndex = none ∨ cellTypeIndex = some "" then
        { s with colors := restoreLoop s.originalColors 0 s.colors,
                 brightness := s.brightness.map (fun _ => (1 : ℚ)),
                 highlightedType := none }
      else
        let sel := parseIntJs (cellTypeIndex.getD "")
        let r := highlightLoop cts 0 sel s.originalColors s.colors s.brightness
        { s with colors := r.1, brightness := r.2, highlightedType := some sel }
  | _, _ => s

/-- The white-out loop of the "none" branch of `switchAttribute`
(main.js 568-573): for each point index `i` below `pointCount`, write the
white triple into the color buffer and `1.0` into the brightness buffer. -/
def whitenLoop (colors brightness : List ℚ) (i fuel : Nat) : List ℚ × List ℚ :=
  match fuel with
  | 0 => (colors, brightness)
  | f + 1 =>
      whitenLoop (((colors.set (3 * i) 1).set (3 * i + 1) 1).set (3 * i + 2) 1)
        (brightness.set i 1) (i + 1) f

/-- The `attrName === 'none'` branch of `switchAttribute` (main.js 548-583):
clear the attribute pointers, then (when a point cloud exists) set all points
white with full brightness and store white as the original colors. -/
def noneBranch (s : VizState) : VizState :=
  let s1 := { s with currentAttribute := none, cellTypes := none,
                     cellTypeNames := none,
                     log := s.log ++ ["Switched to None - displaying white points"] }
  if s1.hasPointCloud then
    let pc := s1.colors.length / 3
    let r := whitenLoop s1.colors s1.brightness 0 pc
    { s1 with colors := r.1, brightness := r.2, originalColors := r.1 }
  else s1

/-- Outcome of the synchronous part of `switchAttribute`: either the method
returned before any fetch, or it reached the `await fetch` for the color
variant with the given intermediate state. -/
inductive SwitchOutcome where
  | done : VizState → SwitchOutcome
  | fetching : VizState → SwitchOutcome
deriving DecidableEq, Repr

/-- State carried by either outcome. -/
def outcomeState : SwitchOutcome → VizState
  | SwitchOutcome.done s => s
  | SwitchOutcome.fetching s => s

/-- Synchronous part of `switchAttribute(attrName)` (main.js 544-599): the
falsy early return, the `'none'` branch, the missing-data early return, and
otherwise the updates that happen before the color-variant fetch suspends. -/
def switchAttributeBegin (attrName : String) (s : VizState) : SwitchOutcome :=
  if attrName = "" then SwitchOutcome.done s
  else if attrName = "none" then SwitchOutcome.done (noneBranch s)
  else
    match lookupData s.attributeData attrName with
    | none => SwitchOutcome.done s
    | some cts =>
        SwitchOutcome.fetching
          { s with currentAttribute := some attrName,
                   cellTypes := some cts,
                   cellTypeNames := lookupNames s.attributes attrName,
                   log := s.log ++ ["Switched to attribute: " ++ attrName] }

/-- Continuation of `switchAttribute` after a successful color-variant fetch
(main.js 603-626): normalize the bytes, replace `originalColors`, copy the
floats into the live color buffer when a point cloud exists, then reset the
highlight via `updateHighlight('')`.  Applied to whatever the state is when
the response arrives; the source consults no request token first. -/
def switchAttributeApply (bytes : List Nat) (s : VizState) : VizState :=
  let colorFloats : List ℚ := bytes.map (fun (c : Nat) => (c : ℚ) / 255)
  let s1 := { s with originalColors := colorFloats }
  let s2 :=
    if s1.hasPointCloud then { s1 with colors := restoreLoop colorFloats 0 s1.colors }
    else s1
  updateHighlight (some "") s2

/-- Continuation of `switchAttribute` when the color-variant fetch fails
(main.js 627-629): only `console.error` runs. -/
def switchAttributeFail (attrName : String) (s : VizState) : VizState :=
  { s with log := s.log ++ ["Error loading colors for " ++ attrName] }

/-- Result of the color-variant fetch. -/
inductive FetchResult where
  | ok : List Nat → FetchResult
  | err : FetchResult
deriving DecidableEq, Repr

/-- A whole non-overlapping `switchAttribute(attrName)` call whose fetch (if
reached) resolves with `fr`. -/
def switchAttribute (attrName : String) (fr : FetchResult) (s : VizState) : VizState :=
  match switchAttributeBegin attrName s with
  | SwitchOutcome.done s' => s'
  | SwitchOutcome.fetching s' =>
      match fr with
      | FetchResult.ok bytes => switchAttributeApply bytes s'
      | FetchResult.err => switchAttributeFail attrName s'

/-- A resolved HTTP response as the `then` continuation at main.js 603 sees
it: the status flag and the body bytes.  The source reads `r.arrayBuffer()`
there without consulting `r.ok` (unlike the optional fetches at main.js 113,
141, 163-164), so the body is available whatever the status. -/
structure HttpResponse where
  ok : Bool
  body : List Nat
deriving DecidableEq, Repr

/-- How the color-variant fetch at main.js 603 settles: the promise either
rejects (network failure, control reaches the catch) or resolves with a
response, possibly one carrying a non-OK status and an error body. -/
inductive FetchOutcome where
  | rejected : FetchOutcome
  | resolved : HttpResponse → FetchOutcome
deriving DecidableEq, Repr

/-- A whole non-overlapping `switchAttribute(attrName)` call whose fetch (if
reached) settles as `fo`.  Because line 603 checks no `r.ok`, any resolved
response — non-OK status included — flows through `r.arrayBuffer()` into the
apply continuation; only a rejected promise reaches the catch. -/
def switchAttributeHttp (attrName : String) (fo : FetchOutcome) (s : VizState) :
    VizState :=
  match switchAttributeBegin attrName s with
  | SwitchOutcome.done s' => s'
  | SwitchOutcome.fetching s' =>
      match fo with
      | FetchOutcome.resolved r => switchAttributeApply r.body s'
      | FetchOutcome.rejected => switchAttributeFail attrName s'

/-- Buffers produced by the construction core of `loadPointCloud`. -/
structure LoadedBuffers where
  pointCount : Nat
  colors : List ℚ
  originalColors : List ℚ
  brightness : List ℚ
deriving DecidableEq, Repr

/-- Error kinds the spec's loader contract names. -/
inductive LoadError where
  | formatMismatch : LoadError
deriving DecidableEq, Repr

/-- Buffer-construction core of `loadPointCloud` (main.js 130-223):
`pointCount = coords.length / 3`, colors normalized from bytes,
`originalColors` a copy, brightness all `1.0` of length `pointCount`.
The `Except` channel mirrors the surrounding `try`/`catch`; the source
checks no length condition, so construction always succeeds. -/
def loadBuffers (coords : List ℚ) (colorBytes : List Nat) :
    Except LoadError LoadedBuffers :=
  let pointCount := coords.length / 3
  let colorFloats : List ℚ := colorBytes.map (fun (c : Nat) => (c : ℚ) / 255)
  Except.ok
    { pointCount := pointCount, colors := colorFloats,
      originalColors := colorFloats,
      brightness := List.replicate pointCount 1 }

/-- Concrete state matching the spec's scenario: 4 points, attribute `t`
with categories `A`, `B`, codes `[0, 1, 0, 1]`, distinct original colors. -/
def exampleState : VizState :=
  { currentAttribute := some "t", cellTypes := some [0, 1, 0, 1],
    cellTypeNames := some ["A", "B"], attributeData := [("t", [0, 1, 0, 1])],
    attributes := some [("t", ["A", "B"])],
    colors := [0.5, 0.5, 0.5, 0.6, 0.6, 0.6, 0.7, 0.7, 0.7, 0.8, 0.8, 0.8],
    brightness := [1, 1, 1, 1],
    originalColors := [0.5, 0.5, 0.5, 0.6, 0.6, 0.6, 0.7, 0.7, 0.7, 0.8, 0.8, 0.8],
    highlightedType := none, hasPointCloud := true, log := [] }

/-- Concrete state with an active highlight (category 0 of attribute `t`):
point 1 is dimmed; a second attribute `u` is available for switching. -/
def dimmedState : VizState :=
  { currentAttribute := some "t", cellTypes := some [0, 1],
    cellTypeNames := some ["A", "B"],
    attributeData := [("t", [0, 1]), ("u", [1, 0])],
    attributes := some [("t", ["A", "B"]), ("u", ["C", "D"])],
    colors := [0.5, 0.5, 0.5, 0.2, 0.2, 0.2], brightness := [1, 0.15],
    originalColors := [0.5, 0.5, 0.5, 0.6, 0.6, 0.6],
    highlightedType := some (JsNum.int 0), hasPointCloud := true, log := [] }

/-- Concrete state with no attribute code data loaded. -/
def noCodesState : VizState :=
  { currentAttribute := none, cellTypes := none, cellTypeNames := none,
    attributeData := [], attributes := none,
    colors := [0.5, 0.5, 0.5], brightness := [1],
    originalColors := [0.4, 0.4, 0.4], highlightedType := none,
    hasPointCloud := true, log := [] }

/-- Concrete state whose code buffer has one entry while the point cloud has
two points (six color floats, two brightness scalars). -/
def shortCodesState : VizState :=
  { currentAttribute := some "t", cellTypes := some [0],
    cellTypeNames := some ["A"], attributeData := [("t", [0])],
    attributes := some [("t", ["A"])],
    colors := [0.5, 0.5, 0.5, 0.6, 0.6, 0.6], brightness := [1, 0.7],
    originalColors := [0.5, 0.5, 0.5, 0.6, 0.6, 0.6], highlightedType := none,
    hasPointCloud := true, log := [] }

/-- Base state for the overlapping-switch scenario: attributes `X` and `Y`
both loaded, one point. -/
def staleBase : VizState :=
  { currentAttribute := none, cellTypes := none, cellTypeNames := none,
    attributeData := [("X", [0]), ("Y", [0])],
    attributes := some [("X", ["a"]), ("Y", ["b"])],
    colors := [0.5, 0.5, 0.5], brightness := [1],
    originalColors := [0.5, 0.5, 0.5], highlightedType := none,
    hasPointCloud := true, log := [] }

/-- State after: `switchAttribute('X')` suspends at its fetch,
`switchAttribute('Y')` suspends at its fetch, `Y`'s response `[0,0,0]`
(black) is applied.  `X`'s response is still outstanding. -/
def afterY : VizState :=
  switchAttributeApply [0, 0, 0]
    (outcomeState (switchAttributeBegin "Y"
      (outcomeState (switchAttributeBegin "X" staleBase))))

/-- State after `X`'s stale response `[255,255,255]` (white) finally resolves
and its continuation runs on `afterY`. -/
def afterStaleX : VizState :=
  switchAttributeApply [255, 255, 255] afterY

/-! Helper lemmas about the loop embeddings. -/

theorem getD_set_self (l : List ℚ) (i : Nat) (v d : ℚ) (h : i < l.length) :
    (l.set i v).getD i d = v := by
  simp [List.getD, List.getElem?_set_self', List.getElem?_eq_getElem h]

theorem getD_set_ne (l : List ℚ) (i j : Nat) (v d : ℚ) (h : i ≠ j) :
    (l.set i v).getD j d = l.getD j d := by
  simp [List.getD, List.getElem?_set_ne h]

theorem getD_set_split (l : List ℚ) (i j : Nat) (v d : ℚ) :
    (l.set i v).getD j d = if i = j ∧ i < l.length then v else l.getD j d := by
  by_cases hij : i = j
  · subst hij
    by_cases hl : i < l.length
    · simp [hl, getD_set_self]
    · simp [hl, List.set_eq_of_length_le (Nat.le_of_not_lt hl)]
  · simp [hij, getD_set_ne _ _ _ _ _ hij]

theorem restoreLoop_length (src : List ℚ) (i : Nat) (dst : List ℚ) :
    (restoreLoop src i dst).length = dst.length := by
  induction src generalizing i dst with
  | nil => rfl
  | cons v rest ih => simp [restoreLoop, ih]

theorem take_succ_set (dst : List ℚ) (i : Nat) (v : ℚ) (h : i < dst.length) :
    (dst.set i v).take (i + 1) = dst.take i ++ [v] := by
  induction dst generalizing i with
  | nil => simp at h
  | cons a tl ih =>
      cases i with
      | zero => simp [List.set]
      | succ n =>
          simp only [List.set, List.take_succ_cons, List.cons_append]
          rw [ih n (by simpa using h)]

theorem restoreLoop_full (src : List ℚ) (i : Nat) (dst : List ℚ)
    (h : dst.length = i + src.length) :
    restoreLoop src i dst = dst.take i ++ src := by
  induction src generalizing i dst with
  | nil =>
      simp only [List.length_nil] at h
      simp only [restoreLoop, List.append_nil]
      exact (List.take_of_length_le (by omega)).symm
  | cons v rest ih =>
      simp only [List.length_cons] at h
      simp only [restoreLoop]
      rw [ih (i + 1) (dst.set i v) (by simp; omega)]
      rw [take_succ_set dst i v (by omega)]
      simp

theorem restoreLoop_eq_src (src dst : List ℚ) (h : dst.length = src.length) :
    restoreLoop src 0 dst = src := by
  rw [restoreLoop_full src 0 dst (by omega)]
  simp

theorem highlightLoop_colors_length (cts : List Nat) (i : Nat) (sel : JsNum)
    (orig colors brightness : List ℚ) :
    (highlightLoop cts i sel orig colors brightness).1.length = colors.length := by
  induction cts generalizing i colors brightness with
  | nil => rfl
  | cons code rest ih =>
      simp only [highlightLoop]
      rw [ih]
      by_cases hs : jsEq code sel <;> simp [hs]

theorem highlightLoop_brightness_length (cts : List Nat) (i : Nat) (sel : JsNum)
    (orig colors brightness : List ℚ) :
    (highlightLoop cts i sel orig colors brightness).2.length = brightness.length := by
  induction cts generalizing i colors brightness with
  | nil => rfl
  | cons code rest ih =>
      simp only [highlightLoop]
      rw [ih]
      by_cases hs : jsEq code sel <;> simp [hs]

theorem getD_oob (l : List ℚ) (i : Nat) (d : ℚ) (h : l.length ≤ i) :
    l.getD i d = d := List.getD_eq_default l d h

theorem highlightLoop_brightness_getD (cts : List Nat) (i : Nat) (sel : JsNum)
    (orig colors brightness : List ℚ) (j : Nat) (d : ℚ) :
    (highlightLoop cts i sel orig colors brightness).2.getD j d =
      if i ≤ j ∧ j - i < cts.length ∧ j < brightness.length then
        (if jsEq (cts.getD (j - i) 0) sel then 1 else 0.15)
      else brightness.getD j d := by
  induction cts generalizing i colors brightness with
  | nil => simp [highlightLoop]
  | cons code rest ih =>
      simp only [highlightLoop]
      by_cases hs : jsEq code sel
      all_goals simp only [hs, if_true, if_false, Bool.false_eq_true, reduceIte]
      all_goals rw [ih]
      all_goals simp only [List.length_set, List.length_cons]
      all_goals by_cases hij : i = j
      · subst hij
        rw [if_neg (by omega), getD_set_split]
        by_cases hlen : i < brightness.length
        · rw [if_pos ⟨rfl, hlen⟩, if_pos ⟨Nat.le_refl i, by omega, hlen⟩]
          simp [Nat.sub_self, List.getD_cons_zero, hs]
        · rw [if_neg (by tauto), if_neg (by tauto)]
      · rw [getD_set_ne _ _ _ _ _ hij]
        by_cases hc : i + 1 ≤ j ∧ j - (i + 1) < rest.length ∧ j < brightness.length
        · rw [if_pos hc,
            if_pos (show i ≤ j ∧ j - i < rest.length + 1 ∧ j < brightness.length by omega)]
          have h1 : j - i = (j - (i + 1)) + 1 := by omega
          rw [h1, List.getD_cons_succ]
        · rw [if_neg hc,
            if_neg (show ¬(i ≤ j ∧ j - i < rest.length + 1 ∧ j < brightness.length) by omega)]
      · subst hij
        rw [if_neg (by omega), getD_set_split]
        by_cases hlen : i < brightness.length
        · rw [if_pos ⟨rfl, hlen⟩, if_pos ⟨Nat.le_refl i, by omega, hlen⟩]
          simp [Nat.sub_self, List.getD_cons_zero, hs]
        · rw [if_neg (by tauto), if_neg (by tauto)]
      · rw [getD_set_ne _ _ _ _ _ hij]
        by_cases hc : i + 1 ≤ j ∧ j - (i + 1) < rest.length ∧ j < brightness.length
        · rw [if_pos hc,
            if_pos (show i ≤ j ∧ j - i < rest.length + 1 ∧ j < brightness.length by omega)]
          have h1 : j - i = (j - (i + 1)) + 1 := by omega
          rw [h1, List.getD_cons_succ]
        · rw [if_neg hc,
            if_neg (show ¬(i ≤ j ∧ j - i < rest.length + 1 ∧ j < brightness.length) by omega)]

theorem tripleSet_getD (l : List ℚ) (a : Nat) (v0 v1 v2 d : ℚ) (m : Nat) :
    (((l.set a v0).set (a + 1) v1).set (a + 2) v2).getD m d =
      if a + 2 = m ∧ a + 2 < l.length then v2
      else if a + 1 = m ∧ a + 1 < l.length then v1
      else if a = m ∧ a < l.length then v0
      else l.getD m d := by
  rw [getD_set_split, getD_set_split, getD_set_split]
  simp only [List.length_set]

theorem highlightLoop_colors_getD (cts : List Nat) (i : Nat) (sel : JsNum)
    (orig colors brightness : List ℚ) (m : Nat) (d : ℚ) :
    (highlightLoop cts i sel orig colors brightness).1.getD m d =
      if 3 * i ≤ m ∧ m < 3 * (i + cts.length) ∧ m < colors.length then
        (if jsEq (cts.getD (m / 3 - i) 0) sel then orig.getD m 0 else 0.2)
      else colors.getD m d := by
  induction cts generalizing i colors brightness with
  | nil =>
      simp only [highlightLoop, List.length_nil]
      rw [if_neg (by omega)]
  | cons code rest ih =>
      simp only [highlightLoop]
      have hcol :
          (if jsEq code sel then
            ((colors.set (3 * i) (orig.getD (3 * i) 0)).set (3 * i + 1)
                (orig.getD (3 * i + 1) 0)).set (3 * i + 2) (orig.getD (3 * i + 2) 0)
          else ((colors.set (3 * i) 0.2).set (3 * i + 1) 0.2).set (3 * i + 2) 0.2)
          = ((colors.set (3 * i) (if jsEq code sel then orig.getD (3 * i) 0 else 0.2)).set
              (3 * i + 1) (if jsEq code sel then orig.getD (3 * i + 1) 0 else 0.2)).set
              (3 * i + 2) (if jsEq code sel then orig.getD (3 * i + 2) 0 else 0.2) := by
        by_cases hs : jsEq code sel <;> simp [hs]
      rw [hcol, ih]
      simp only [List.length_set, List.length_cons]
      by_cases hA : 3 * (i + 1) ≤ m ∧ m < 3 * (i + 1 + rest.length) ∧ m < colors.length
      · rw [if_pos hA,
          if_pos (show 3 * i ≤ m ∧ m < 3 * (i + (rest.length + 1)) ∧ m < colors.length
            by omega)]
        have h1 : m / 3 - i = (m / 3 - (i + 1)) + 1 := by omega
        rw [h1, List.getD_cons_succ]
      · rw [if_neg hA, tripleSet_getD]
        by_cases hin : 3 * i ≤ m ∧ m < 3 * i + 3 ∧ m < colors.length
        · rw [if_pos (show 3 * i ≤ m ∧ m < 3 * (i + (rest.length + 1)) ∧ m < colors.length
              by omega)]
          have hdiv : m / 3 - i = 0 := by omega
          rw [hdiv, List.getD_cons_zero]
          rcases (show m = 3 * i ∨ m = 3 * i + 1 ∨ m = 3 * i + 2 by omega) with h | h | h
          · rw [if_neg (show ¬(3 * i + 2 = m ∧ 3 * i + 2 < colors.length) by omega),
              if_neg (show ¬(3 * i + 1 = m ∧ 3 * i + 1 < colors.length) by omega),
              if_pos (show 3 * i = m ∧ 3 * i < colors.length by omega), h]
          · rw [if_neg (show ¬(3 * i + 2 = m ∧ 3 * i + 2 < colors.length) by omega),
              if_pos (show 3 * i + 1 = m ∧ 3 * i + 1 < colors.length by omega), h]
          · rw [if_pos (show 3 * i + 2 = m ∧ 3 * i + 2 < colors.length by omega), h]
        · rw [if_neg (show ¬(3 * i ≤ m ∧ m < 3 * (i + (rest.length + 1)) ∧ m < colors.length)
              by omega),
            if_neg (show ¬(3 * i + 2 = m ∧ 3 * i + 2 < colors.length) by omega),
            if_neg (show ¬(3 * i + 1 = m ∧ 3 * i + 1 < colors.length) by omega),
            if_neg (show ¬(3 * i = m ∧ 3 * i < colors.length) by omega)]

theorem getD_map_one (l : List ℚ) (i : Nat) (h : i < l.length) :
    (l.map (fun _ => (1 : ℚ))).getD i 0 = 1 := by
  induction l generalizing i with
  | nil => simp at h
  | cons a tl ih =>
      cases i with
      | zero => rfl
      | succ n =>
          simp only [List.map, List.getD_cons_succ]
          exact ih n (by simpa using h)

theorem updateHighlight_noCellTypes (c : Option String) (s : VizState)
    (h : s.cellTypes = none) : updateHighlight c s = s := by
  rcases h2 : s.hasPointCloud <;> simp [updateHighlight, h, h2]

theorem updateHighlight_noPointCloud (c : Option String) (s : VizState)
    (h : s.hasPointCloud = false) : updateHighlight c s = s := by
  rcases h1 : s.cellTypes with _ | cts <;> simp [updateHighlight, h, h1]

theorem updateHighlight_clear (s : VizState) (cts : List Nat)
    (hct : s.cellTypes = some cts) (hpc : s.hasPointCloud = true)
    (c : Option String) (hc : c = none ∨ c = some "") :
    updateHighlight c s =
      { s with colors := restoreLoop s.originalColors 0 s.colors,
               brightness := s.brightness.map (fun _ => (1 : ℚ)),
               highlightedType := none } := by
  simp only [updateHighlight, hct, hpc, if_pos hc]

theorem updateHighlight_hl (s : VizState) (cts : List Nat) (c : String)
    (hct : s.cellTypes = some cts) (hpc : s.hasPointCloud = true) (hc : ¬(c = "")) :
    updateHighlight (some c) s =
      { s with
        colors :=
          (highlightLoop cts 0 (parseIntJs c) s.originalColors s.colors s.brightness).1,
        brightness :=
          (highlightLoop cts 0 (parseIntJs c) s.originalColors s.colors s.brightness).2,
        highlightedType := some (parseIntJs c) } := by
  simp only [updateHighlight, hct, hpc]
  rw [if_neg (by simp [hc])]
  rfl

theorem updateHighlight_fields (c : Option String) (s : VizState) :
    (updateHighlight c s).cellTypes = s.cellTypes ∧
    (updateHighlight c s).hasPointCloud = s.hasPointCloud ∧
    (updateHighlight c s).originalColors = s.originalColors ∧
    (updateHighlight c s).colors.length = s.colors.length := by
  rcases h1 : s.cellTypes with _ | cts
  · rw [updateHighlight_noCellTypes c s h1]
    exact ⟨h1, rfl, rfl, rfl⟩
  · rcases h2 : s.hasPointCloud
    · rw [updateHighlight_noPointCloud c s h2]
      exact ⟨h1, h2, rfl, rfl⟩
    · by_cases hc : c = none ∨ c = some ""
      · rw [updateHighlight_clear s cts h1 h2 c hc]
        exact ⟨h1, h2, rfl, restoreLoop_length _ _ _⟩
      · rcases c with _ | cs
        · exact absurd (Or.inl rfl) hc
        · have hcs : ¬(cs = "") := by
            intro h
            exact hc (Or.inr (by rw [h]))
          rw [updateHighlight_hl s cts cs h1 h2 hcs]
          exact ⟨h1, h2, rfl, highlightLoop_colors_length _ _ _ _ _ _⟩

theorem updateHighlight_hl_brightness (s : VizState) (cts : List Nat) (c : String)
    (hct : s.cellTypes = some cts) (hpc : s.hasPointCloud = true) (hc : ¬(c = "")) :
    (updateHighlight (some c) s).brightness =
      (highlightLoop cts 0 (parseIntJs c) s.originalColors s.colors s.brightness).2 := by
  rw [updateHighlight_hl s cts c hct hpc hc]

theorem updateHighlight_hl_colors (s : VizState) (cts : List Nat) (c : String)
    (hct : s.cellTypes = some cts) (hpc : s.hasPointCloud = true) (hc : ¬(c = "")) :
    (updateHighlight (some c) s).colors =
      (highlightLoop cts 0 (parseIntJs c) s.originalColors s.colors s.brightness).1 := by
  rw [updateHighlight_hl s cts c hct hpc hc]

theorem updateHighlight_clear_colors (s : VizState) (cts : List Nat)
    (hct : s.cellTypes = some cts) (hpc : s.hasPointCloud = true)
    (c : Option String) (hc : c = none ∨ c = some "") :
    (updateHighlight c s).colors = restoreLoop s.originalColors 0 s.colors := by
  rw [updateHighlight_clear s cts hct hpc c hc]

theorem updateHighlight_clear_brightness (s : VizState) (cts : List Nat)
    (hct : s.cellTypes = some cts) (hpc : s.hasPointCloud = true)
    (c : Option String) (hc : c = none ∨ c = some "") :
    (updateHighlight c s).brightness = s.brightness.map (fun _ => (1 : ℚ)) := by
  rw [updateHighlight_clear s cts hct hpc c hc]

theorem updateHighlight_clear_highlightedType (s : VizState) (cts : List Nat)
    (hct : s.cellTypes = some cts) (hpc : s.hasPointCloud = true)
    (c : Option String) (hc : c = none ∨ c = some "") :
    (updateHighlight c s).highlightedType = none := by
  rw [updateHighlight_clear s cts hct hpc c hc]

theorem switchAttributeBegin_fetch (attrName : String) (s : VizState) (cts : List Nat)
    (h1 : ¬(attrName = "")) (h2 : ¬(attrName = "none"))
    (h3 : lookupData s.attributeData attrName = some cts) :
    switchAttributeBegin attrName s =
      SwitchOutcome.fetching
        { s with currentAttribute := some attrName,
                 cellTypes := some cts,
                 cellTypeNames := lookupNames s.attributes attrName,
                 log := s.log ++ ["Switched to attribute: " ++ attrName] } := by
  simp only [switchAttributeBegin, if_neg h1, if_neg h2, h3]

theorem switchAttributeApply_reset (bytes : List Nat) (ca : Option String)
    (cts : List Nat) (ctn : Option (List String)) (ad : List (String × List Nat))
    (att : Option (List (String × List String))) (co br oc : List ℚ)
    (ht : Option JsNum) (lg : List String) :
    (switchAttributeApply bytes
        ⟨ca, some cts, ctn, ad, att, co, br, oc, ht, true, lg⟩).highlightedType
      = none ∧
    (switchAttributeApply bytes
        ⟨ca, some cts, ctn, ad, att, co, br, oc, ht, true, lg⟩).brightness =
      br.map (fun _ => (1 : ℚ)) := by
  simp only [switchAttributeApply, if_true]
  constructor
  · exact updateHighlight_clear_highlightedType _ cts rfl rfl (some "") (Or.inr rfl)
  · exact updateHighlight_clear_brightness _ cts rfl rfl (some "") (Or.inr rfl)

theorem switchAttributeApply_originalColors (bytes : List Nat) (s : VizState) :
    (switchAttributeApply bytes s).originalColors =
      bytes.map (fun (c : Nat) => (c : ℚ) / 255) := by
  simp only [switchAttributeApply]
  rw [(updateHighlight_fields (some "") _).2.2.1]
  by_cases hpc : s.hasPointCloud <;> simp [hpc]

/-! Claim theorems. -/

/-- C1: for every point `p` below the attribute code buffer's length, after
`highlight(c)` with an attribute loaded (and `p` within the brightness and
color buffers): if the code of `p` equals `c` then `brightness[p] = 1.0` and
the RGB triple of `p` equals the corresponding triple of the original-color
buffer, otherwise `brightness[p] = 0.15` and the triple is `(0.2,0.2,0.2)`. -/
theorem C1_highlight_per_point (s : VizState) (cts : List Nat) (c : String)
    (k : Int) (p : Nat)
    (hct : s.cellTypes = some cts) (hpc : s.hasPointCloud = true)
    (hc : ¬(c = "")) (hk : parseIntJs c = JsNum.int k)
    (hp : p < cts.length) (hb : p < s.brightness.length)
    (hcl : 3 * p + 2 < s.colors.length) :
    (((cts.getD p 0 : Int) = k) →
      (updateHighlight (some c) s).brightness.getD p 0 = 1 ∧
      (updateHighlight (some c) s).colors.getD (3 * p) 0 =
        s.originalColors.getD (3 * p) 0 ∧
      (updateHighlight (some c) s).colors.getD (3 * p + 1) 0 =
        s.originalColors.getD (3 * p + 1) 0 ∧
      (updateHighlight (some c) s).colors.getD (3 * p + 2) 0 =
        s.originalColors.getD (3 * p + 2) 0) ∧
    (((cts.getD p 0 : Int) ≠ k) →
      (updateHighlight (some c) s).brightness.getD p 0 = 0.15 ∧
      (updateHighlight (some c) s).colors.getD (3 * p) 0 = 0.2 ∧
      (updateHighlight (some c) s).colors.getD (3 * p + 1) 0 = 0.2 ∧
      (updateHighlight (some c) s).colors.getD (3 * p + 2) 0 = 0.2) := by
  rw [updateHighlight_hl_brightness s cts c hct hpc hc,
    updateHighlight_hl_colors s cts c hct hpc hc, hk,
    highlightLoop_brightness_getD, highlightLoop_colors_getD,
    highlightLoop_colors_getD, highlightLoop_colors_getD]
  rw [if_pos (show 0 ≤ p ∧ p - 0 < cts.length ∧ p < s.brightness.length
      by exact ⟨Nat.zero_le p, by omega, hb⟩),
    if_pos (show 3 * 0 ≤ 3 * p ∧ 3 * p < 3 * (0 + cts.length) ∧ 3 * p < s.colors.length
      by omega),
    if_pos (show 3 * 0 ≤ 3 * p + 1 ∧ 3 * p + 1 < 3 * (0 + cts.length) ∧
        3 * p + 1 < s.colors.length by omega),
    if_pos (show 3 * 0 ≤ 3 * p + 2 ∧ 3 * p + 2 < 3 * (0 + cts.length) ∧
        3 * p + 2 < s.colors.length by omega)]
  have hd0 : 3 * p / 3 - 0 = p := by omega
  have hd1 : (3 * p + 1) / 3 - 0 = p := by omega
  have hd2 : (3 * p + 2) / 3 - 0 = p := by omega
  rw [hd0, hd1, hd2, Nat.sub_zero]
  constructor
  · intro hmatch
    have hje : jsEq (cts.getD p 0) (JsNum.int k) = true := by
      simp only [jsEq, beq_iff_eq]
      exact hmatch
    rw [hje]
    simp
  · intro hmatch
    have hje : jsEq (cts.getD p 0) (JsNum.int k) = false := by
      simp only [jsEq]
      exact beq_eq_false_iff_ne.mpr hmatch
    rw [hje]
    simp

/-- C8: calling `highlight` with no attribute code data loaded
(`cellTypes` is null) is a no-op: the state, buffers included, is returned
unchanged and no error is raised. -/
theorem C8_no_codes_noop (c : Option String) (s : VizState)
    (h : s.cellTypes = none) : updateHighlight c s = s :=
  updateHighlight_noCellTypes c s h

/-- C8 witness: on `noCodesState`, highlighting category "1" changes
nothing. -/
theorem C8_witness :
    noCodesState.cellTypes = none ∧
    updateHighlight (some "1") noCodesState = noCodesState :=
  ⟨rfl, C8_no_codes_noop (some "1") noCodesState rfl⟩

/-- C9: `highlight(c)` and `clearHighlight()` (any `updateHighlight` call)
leave the original-color buffer unchanged. -/
theorem C9_originalColors_untouched (c : Option String) (s : VizState) :
    (updateHighlight c s).originalColors = s.originalColors :=
  (updateHighlight_fields c s).2.2.1

/-- C10: the highlight loop is bounded by the code buffer's length: for a
point index `p` at or beyond `cellTypes.length`, `highlight(c)` leaves
`brightness[p]` and the color triple at `p` unchanged. -/
theorem C10_loop_bounded_by_codes (s : VizState) (cts : List Nat) (c : String)
    (p : Nat) (hct : s.cellTypes = some cts) (hpc : s.hasPointCloud = true)
    (hc : ¬(c = "")) (hp : cts.length ≤ p) :
    (updateHighlight (some c) s).brightness.getD p 0 = s.brightness.getD p 0 ∧
    (updateHighlight (some c) s).colors.getD (3 * p) 0 =
      s.colors.getD (3 * p) 0 ∧
    (updateHighlight (some c) s).colors.getD (3 * p + 1) 0 =
      s.colors.getD (3 * p + 1) 0 ∧
    (updateHighlight (some c) s).colors.getD (3 * p + 2) 0 =
      s.colors.getD (3 * p + 2) 0 := by
  rw [updateHighlight_hl_brightness s cts c hct hpc hc,
    updateHighlight_hl_colors s cts c hct hpc hc,
    highlightLoop_brightness_getD, highlightLoop_colors_getD,
    highlightLoop_colors_getD, highlightLoop_colors_getD]
  rw [if_neg (show ¬(0 ≤ p ∧ p - 0 < cts.length ∧ p < s.brightness.length) by omega),
    if_neg (show ¬(3 * 0 ≤ 3 * p ∧ 3 * p < 3 * (0 + cts.length) ∧
        3 * p < s.colors.length) by omega),
    if_neg (show ¬(3 * 0 ≤ 3 * p + 1 ∧ 3 * p + 1 < 3 * (0 + cts.length) ∧
        3 * p + 1 < s.colors.length) by omega),
    if_neg (show ¬(3 * 0 ≤ 3 * p + 2 ∧ 3 * p + 2 < 3 * (0 + cts.length) ∧
        3 * p + 2 < s.colors.length) by omega)]
  exact ⟨rfl, rfl, rfl, rfl⟩

/-- C1 witness: in the spec's scenario, `highlight("0")` gives point 0 (code
0) full brightness and its original color, and point 1 (code 1) brightness
0.15 and gray. -/
theorem C1_witness :
    (updateHighlight (some "0") exampleState).brightness.getD 0 0 = 1 ∧
    (updateHighlight (some "0") exampleState).colors.getD 0 0 = 0.5 ∧
    (updateHighlight (some "0") exampleState).brightness.getD 1 0 = 0.15 ∧
    (updateHighlight (some "0") exampleState).colors.getD 3 0 = 0.2 := by
  have h0 := C1_highlight_per_point exampleState [0, 1, 0, 1] "0" 0 0
    rfl rfl (by decide) rfl (by decide) (by decide) (by decide)
  have h1 := C1_highlight_per_point exampleState [0, 1, 0, 1] "0" 0 1
    rfl rfl (by decide) rfl (by decide) (by decide) (by decide)
  refine ⟨(h0.1 (by decide)).1, ?_, (h1.2 (by decide)).1, ?_⟩
  · have := (h0.1 (by decide)).2.1
    simpa using this
  · have := (h1.2 (by decide)).2.1
    simpa using this

/-- C3: with an attribute loaded and the buffer-length invariant
(`originalColors` and `colors` equally long), `highlight(c)` followed by
`clearHighlight()` leaves the color buffer bit-identical to the
original-color buffer and every brightness entry equal to 1.0. -/
theorem C3_round_trip (s : VizState) (cts : List Nat) (cIdx : Option String)
    (hct : s.cellTypes = some cts) (hpc : s.hasPointCloud = true)
    (hlen : s.originalColors.length = s.colors.length) :
    (updateHighlight none (updateHighlight cIdx s)).colors = s.originalColors ∧
    ∀ i, i < (updateHighlight none (updateHighlight cIdx s)).brightness.length →
      (updateHighlight none (updateHighlight cIdx s)).brightness.getD i 0 = 1 := by
  obtain ⟨h1, h2, h3, h4⟩ := updateHighlight_fields cIdx s
  have hct' : (updateHighlight cIdx s).cellTypes = some cts := by rw [h1, hct]
  have hpc' : (updateHighlight cIdx s).hasPointCloud = true := by rw [h2, hpc]
  have hlen' : (updateHighlight cIdx s).colors.length =
      (updateHighlight cIdx s).originalColors.length := by
    rw [h3, h4, hlen]
  constructor
  · rw [updateHighlight_clear_colors (updateHighlight cIdx s) cts hct' hpc'
      none (Or.inl rfl)]
    rw [restoreLoop_eq_src _ _ hlen']
    exact h3
  · intro i hi
    rw [updateHighlight_clear_brightness (updateHighlight cIdx s) cts hct' hpc'
      none (Or.inl rfl)] at hi ⊢
    rw [List.length_map] at hi
    exact getD_map_one _ _ hi

/-- C3 witness: on the spec's scenario, highlight category 1 then clear;
colors return to the originals and brightness to all 1.0. -/
theorem C3_witness :
    (updateHighlight none (updateHighlight (some "1") exampleState)).colors =
      exampleState.originalColors ∧
    (updateHighlight none (updateHighlight (some "1") exampleState)).brightness.getD
      2 0 = 1 := by
  have h := C3_round_trip exampleState [0, 1, 0, 1] (some "1") rfl rfl rfl
  exact ⟨h.1, h.2 2 (by decide)⟩

/-- C4 counterexample: with codes `[0,1,0,1]`, `highlight("foo")` (a
non-numeric, hence invalid, category value) is not treated as "no
highlight": point 0 is dimmed to brightness 0.15 and gray 0.2 instead of
keeping its original color 0.5 at brightness 1.0. -/
theorem C4_counterexample :
    (updateHighlight (some "foo") exampleState).brightness.getD 0 0 = 0.15 ∧
    (updateHighlight (some "foo") exampleState).colors.getD 0 0 = 0.2 ∧
    exampleState.originalColors.getD 0 0 = 0.5 ∧
    exampleState.brightness.getD 0 0 = 1 ∧
    ¬((0.15 : ℚ) = 1) ∧ ¬((0.2 : ℚ) = 0.5) := by
  refine ⟨by rfl, by rfl, by rfl, by rfl, by norm_num, by norm_num⟩

/-- C4 amended: a non-null invalid `highlightedCategory` is NOT treated as
"no highlight"; the code runs the normal highlight pass with
`parseInt(value)`, and when the parsed value matches no code (a non-numeric
string parses to NaN; an out-of-range number matches no stored code) every
point within the code buffer's range is dimmed to `(0.2,0.2,0.2)` with
brightness 0.15, and the parsed value is recorded as the highlighted type. -/
theorem C4_amended_invalid_runs_highlight (s : VizState) (cts : List Nat)
    (c : String) (p : Nat)
    (hct : s.cellTypes = some cts) (hpc : s.hasPointCloud = true)
    (hc : ¬(c = ""))
    (hnomatch : ∀ i, i < cts.length → jsEq (cts.getD i 0) (parseIntJs c) = false)
    (hp : p < cts.length) (hb : p < s.brightness.length)
    (hcl : 3 * p + 2 < s.colors.length) :
    (updateHighlight (some c) s).highlightedType = some (parseIntJs c) ∧
    (updateHighlight (some c) s).brightness.getD p 0 = 0.15 ∧
    (updateHighlight (some c) s).colors.getD (3 * p) 0 = 0.2 ∧
    (updateHighlight (some c) s).colors.getD (3 * p + 1) 0 = 0.2 ∧
    (updateHighlight (some c) s).colors.getD (3 * p + 2) 0 = 0.2 := by
  refine ⟨?_, ?_, ?_, ?_, ?_⟩
  · rw [updateHighlight_hl s cts c hct hpc hc]
  · rw [updateHighlight_hl_brightness s cts c hct hpc hc,
      highlightLoop_brightness_getD,
      if_pos (show 0 ≤ p ∧ p - 0 < cts.length ∧ p < s.brightness.length
        by exact ⟨Nat.zero_le p, by omega, hb⟩),
      Nat.sub_zero, hnomatch p hp]
    rfl
  · rw [updateHighlight_hl_colors s cts c hct hpc hc, highlightLoop_colors_getD,
      if_pos (show 3 * 0 ≤ 3 * p ∧ 3 * p < 3 * (0 + cts.length) ∧
        3 * p < s.colors.length by omega)]
    have hd : 3 * p / 3 - 0 = p := by omega
    rw [hd, hnomatch p hp]
    rfl
  · rw [updateHighlight_hl_colors s cts c hct hpc hc, highlightLoop_colors_getD,
      if_pos (show 3 * 0 ≤ 3 * p + 1 ∧ 3 * p + 1 < 3 * (0 + cts.length) ∧
        3 * p + 1 < s.colors.length by omega)]
    have hd : (3 * p + 1) / 3 - 0 = p := by omega
    rw [hd, hnomatch p hp]
    rfl
  · rw [updateHighlight_hl_colors s cts c hct hpc hc, highlightLoop_colors_getD,
      if_pos (show 3 * 0 ≤ 3 * p + 2 ∧ 3 * p + 2 < 3 * (0 + cts.length) ∧
        3 * p + 2 < s.colors.length by omega)]
    have hd : (3 * p + 2) / 3 - 0 = p := by omega
    rw [hd, hnomatch p hp]
    rfl

/-- C4 amended witness: `highlight("foo")` on the scenario state dims point
2 and records NaN as the highlighted type. -/
theorem C4_amended_witness :
    (updateHighlight (some "foo") exampleState).highlightedType =
      some JsNum.nan ∧
    (updateHighlight (some "foo") exampleState).brightness.getD 2 0 = 0.15 ∧
    (updateHighlight (some "foo") exampleState).colors.getD 6 0 = 0.2 := by
  have h := C4_amended_invalid_runs_highlight exampleState [0, 1, 0, 1] "foo" 2
    rfl rfl (by decide) (by decide) (by decide) (by decide) (by decide)
  refine ⟨?_, h.2.1, ?_⟩
  · rw [h.1]
    rfl
  · have := h.2.2.1
    simpa using this

/-- C10 witness: with one code entry but two points, `highlight("0")`
leaves point 1's brightness (0.7) and colors (0.6) untouched. -/
theorem C10_witness :
    (updateHighlight (some "0") shortCodesState).brightness.getD 1 0 =
      shortCodesState.brightness.getD 1 0 ∧
    (updateHighlight (some "0") shortCodesState).colors.getD 3 0 =
      shortCodesState.colors.getD 3 0 ∧
    (updateHighlight (some "0") shortCodesState).brightness.getD 1 0 = 0.7 := by
  have h := C10_loop_bounded_by_codes shortCodesState [0] "0" 1
    rfl rfl (by decide) (by decide)
  refine ⟨h.1, ?_, by rfl⟩
  have := h.2.1
  simpa using this

/-- C2 counterexample: from a state with an active highlight (category 0,
point 1 dimmed to 0.15), switching to attribute `u` whose color-variant
fetch fails leaves `highlightedType` at category 0 (not null) and the
brightness buffer still `[1, 0.15]` (not all 1.0). -/
theorem C2_counterexample :
    (switchAttribute "u" FetchResult.err dimmedState).highlightedType =
      some (JsNum.int 0) ∧
    (switchAttribute "u" FetchResult.err dimmedState).brightness.getD 1 0 =
      0.15 ∧
    ¬(some (JsNum.int 0) = (none : Option JsNum)) ∧ ¬((0.15 : ℚ) = 1) := by
  refine ⟨by rfl, by rfl, by decide, by norm_num⟩

/-- C2 amended: switching to a regular attribute resets `highlightedType` to
null and every brightness entry to 1.0 only on the success path (code data
present, a point cloud loaded, and the color-variant fetch succeeding); when
the fetch fails, `highlightedType` and the brightness buffer keep their
prior values. -/
theorem C2_amended_reset_only_on_success (attrName : String) (s : VizState)
    (cts : List Nat) (bytes : List Nat)
    (h1 : ¬(attrName = "")) (h2 : ¬(attrName = "none"))
    (h3 : lookupData s.attributeData attrName = some cts)
    (h4 : s.hasPointCloud = true) :
    (switchAttribute attrName (FetchResult.ok bytes) s).highlightedType = none ∧
    (∀ i, i < (switchAttribute attrName (FetchResult.ok bytes) s).brightness.length →
      (switchAttribute attrName (FetchResult.ok bytes) s).brightness.getD i 0 = 1) ∧
    (switchAttribute attrName FetchResult.err s).highlightedType =
      s.highlightedType ∧
    (switchAttribute attrName FetchResult.err s).brightness = s.brightness := by
  have hb := switchAttributeBegin_fetch attrName s cts h1 h2 h3
  have happly := switchAttributeApply_reset bytes (some attrName) cts
    (lookupNames s.attributes attrName) s.attributeData s.attributes
    s.colors s.brightness s.originalColors s.highlightedType
    (s.log ++ ["Switched to attribute: " ++ attrName])
  refine ⟨?_, ?_, ?_, ?_⟩
  · simp only [switchAttribute, hb, h4]
    exact happly.1
  · intro i hi
    simp only [switchAttribute, hb, h4] at hi ⊢
    rw [happly.2] at hi ⊢
    rw [List.length_map] at hi
    exact getD_map_one _ _ hi
  · simp only [switchAttribute, hb, switchAttributeFail]
  · simp only [switchAttribute, hb, switchAttributeFail]

/-- C2 amended witness: switching `dimmedState` to `u` with a successful
fetch resets the highlight and brightness; with a failing fetch it does
not. -/
theorem C2_amended_witness :
    (switchAttribute "u" (FetchResult.ok [0, 0, 0, 0, 0, 0]) dimmedState).highlightedType
      = none ∧
    (switchAttribute "u" (FetchResult.ok [0, 0, 0, 0, 0, 0]) dimmedState).brightness.getD
      1 0 = 1 ∧
    (switchAttribute "u" FetchResult.err dimmedState).brightness =
      dimmedState.brightness := by
  have h := C2_amended_reset_only_on_success "u" dimmedState [1, 0]
    [0, 0, 0, 0, 0, 0] (by decide) (by decide) (by rfl) rfl
  exact ⟨h.1, h.2.1 1 (by decide), h.2.2.2⟩

/-- C5 counterexample: two overlapping `switchAttribute` calls.  `X`'s fetch
suspends, the user switches to `Y`, `Y`'s response (black) is applied, then
`X`'s stale response (white) resolves: the stale continuation overwrites the
color and original-color buffers with `X`'s colors while the current
attribute is still `Y` — the stale result is not discarded. -/
theorem C5_counterexample :
    afterY.currentAttribute = some "Y" ∧
    afterY.originalColors =
      ([0, 0, 0] : List Nat).map (fun (c : Nat) => (c : ℚ) / 255) ∧
    afterStaleX.currentAttribute = some "Y" ∧
    afterStaleX.colors =
      ([255, 255, 255] : List Nat).map (fun (c : Nat) => (c : ℚ) / 255) ∧
    afterStaleX.originalColors =
      ([255, 255, 255] : List Nat).map (fun (c : Nat) => (c : ℚ) / 255) ∧
    (((255 : Nat) : ℚ) / 255 = 1) ∧ (((0 : Nat) : ℚ) / 255 = 0) ∧
    ¬((1 : ℚ) = 0) := by
  refine ⟨by rfl, by rfl, by rfl, by rfl, by rfl, by norm_num, by norm_num,
    by norm_num⟩

/-- C5 amended: the implementation performs no staleness check: the
continuation that applies a color-variant response overwrites the
original-color buffer with the fetched colors unconditionally, whatever the
currently selected attribute is when the response arrives. -/
theorem C5_amended_no_staleness_check (bytes : List Nat) (s : VizState) :
    (switchAttributeApply bytes s).originalColors =
      bytes.map (fun (c : Nat) => (c : ℚ) / 255) :=
  switchAttributeApply_originalColors bytes s

/-- C6 counterexample: a bundle with one point (three coordinates) and a
color buffer of two bytes (3N − 1) loads successfully — `Except.ok`, no
`FormatMismatch` — producing a color buffer of length 2 while 3N = 3. -/
theorem C6_counterexample :
    loadBuffers [0, 0, 0] [10, 20] =
      Except.ok
        { pointCount := 1,
          colors := ([10, 20] : List Nat).map (fun (c : Nat) => (c : ℚ) / 255),
          originalColors := ([10, 20] : List Nat).map (fun (c : Nat) => (c : ℚ) / 255),
          brightness := [1] } ∧
    (([10, 20] : List Nat).map (fun (c : Nat) => (c : ℚ) / 255)).length = 2 ∧
    ¬((2 : Nat) = 3 * 1) := by
  refine ⟨rfl, rfl, by decide⟩

/-- C6 amended: the loader's buffer construction performs no byte-length
validation and never fails: whatever the input lengths, it returns
`Except.ok` with a color buffer of the color file's length and a brightness
buffer of `coords.length / 3` entries, even when these are mutually
inconsistent. -/
theorem C6_amended_no_validation (coords : List ℚ) (colorBytes : List Nat) :
    loadBuffers coords colorBytes =
      Except.ok
        { pointCount := coords.length / 3,
          colors := colorBytes.map (fun (c : Nat) => (c : ℚ) / 255),
          originalColors := colorBytes.map (fun (c : Nat) => (c : ℚ) / 255),
          brightness := List.replicate (coords.length / 3) 1 } ∧
    (colorBytes.map (fun (c : Nat) => (c : ℚ) / 255)).length = colorBytes.length ∧
    (List.replicate (coords.length / 3) (1 : ℚ)).length = coords.length / 3 := by
  exact ⟨rfl, by simp, by simp⟩

/-- C7 counterexample: switching `dimmedState` to `u` when the fetch
resolves with a non-OK HTTP status and the error body `[9, 9, 9]`: the body
bytes replace `originalColors` (previously starting 0.5), the brightness
buffer is reset from `[1, 0.15]` to all 1.0, and no diagnostic beyond the
switch message is logged — the buffers are not left at their last-good
values. -/
theorem C7_counterexample :
    (switchAttributeHttp "u" (FetchOutcome.resolved ⟨false, [9, 9, 9]⟩)
        dimmedState).originalColors =
      ([9, 9, 9] : List Nat).map (fun (c : Nat) => (c : ℚ) / 255) ∧
    (switchAttributeHttp "u" (FetchOutcome.resolved ⟨false, [9, 9, 9]⟩)
        dimmedState).brightness = [1, 1] ∧
    (switchAttributeHttp "u" (FetchOutcome.resolved ⟨false, [9, 9, 9]⟩)
        dimmedState).log = ["Switched to attribute: u"] ∧
    dimmedState.originalColors.getD 0 0 = 0.5 ∧
    dimmedState.brightness = [1, 0.15] ∧
    ¬(((9 : Nat) : ℚ) / 255 = 0.5) ∧ ¬((0.15 : ℚ) = 1) := by
  refine ⟨by rfl, by rfl, by rfl, by rfl, by rfl, by norm_num, by norm_num⟩

/-- C7 amended: only a rejected fetch (network failure reaching the catch)
leaves the color, brightness and original-color buffers untouched and logs a
diagnostic; a resolved response is applied without any status check
(main.js 603 reads `r.arrayBuffer()` with no `r.ok` test), so a non-OK
response's body bytes still replace `originalColors`. -/
theorem C7_amended_only_rejection_preserves (attrName : String) (s : VizState)
    (cts : List Nat) (r : HttpResponse)
    (h1 : ¬(attrName = "")) (h2 : ¬(attrName = "none"))
    (h3 : lookupData s.attributeData attrName = some cts) :
    ((switchAttributeHttp attrName FetchOutcome.rejected s).colors = s.colors ∧
     (switchAttributeHttp attrName FetchOutcome.rejected s).brightness =
       s.brightness ∧
     (switchAttributeHttp attrName FetchOutcome.rejected s).originalColors =
       s.originalColors ∧
     (switchAttributeHttp attrName FetchOutcome.rejected s).log =
       s.log ++ ["Switched to attribute: " ++ attrName,
                 "Error loading colors for " ++ attrName]) ∧
    (switchAttributeHttp attrName (FetchOutcome.resolved r) s).originalColors =
      r.body.map (fun (c : Nat) => (c : ℚ) / 255) := by
  have hb := switchAttributeBegin_fetch attrName s cts h1 h2 h3
  constructor
  · simp only [switchAttributeHttp, hb, switchAttributeFail]
    simp
  · simp only [switchAttributeHttp, hb]
    exact switchAttributeApply_originalColors r.body _

/-- C7 amended witness: on `dimmedState` switching to `u`, a rejected fetch
keeps the color buffer; a resolved response's body is installed as the new
original colors. -/
theorem C7_amended_witness :
    (switchAttributeHttp "u" FetchOutcome.rejected dimmedState).colors =
      dimmedState.colors ∧
    (switchAttributeHttp "u" (FetchOutcome.resolved ⟨true, [0, 0, 0]⟩)
        dimmedState).originalColors =
      ([0, 0, 0] : List Nat).map (fun (c : Nat) => (c : ℚ) / 255) := by
  have h := C7_amended_only_rejection_preserves "u" dimmedState [1, 0]
    ⟨true, [0, 0, 0]⟩ (by decide) (by decide) (by rfl)
  exact ⟨h.1.1, h.2⟩

end Lumap
